import Mathlib

/-!
Shallow embedding of the Quantum Flow trading core (risk manager, scheduler,
trading loop, self-healing supervisor) and proofs about it.

Python floats are modelled as exact rationals, dictionaries as structures or
association lists, and raised exceptions as explicit error values.
-/

namespace QuantumFlow

/-- Exceptions that the modelled Python code can raise. -/
inductive PyError where
  | attributeError
  | valueError
  | unboundLocalError
  | zeroDivisionError
  deriving DecidableEq, Repr

/-- Lookup in an association list modelling a Python dict (`d.get(k)`). -/
def lookupQ (m : List (String × ℚ)) (k : String) : Option ℚ :=
  (m.find? (fun p => p.1 == k)).map (fun p => p.2)

/-- Dict assignment `d[k] = v`: replace the binding if the key exists, else append. -/
def upsertQ (m : List (String × ℚ)) (k : String) (v : ℚ) : List (String × ℚ) :=
  if (m.find? (fun p => p.1 == k)).isSome then
    m.map (fun p => if p.1 == k then (k, v) else p)
  else m ++ [(k, v)]

/-- Does the first character list start with the second one? -/
def startsWithChars : List Char → List Char → Bool
  | _, [] => true
  | [], _ :: _ => false
  | a :: as, b :: bs => a == b && startsWithChars as bs

/-- Substring containment on character lists. -/
def containsChars : List Char → List Char → Bool
  | [], needle => needle.isEmpty
  | h :: t, needle => startsWithChars (h :: t) needle || containsChars t needle

/-- Python `needle in haystack` on strings. -/
def strContains (haystack needle : String) : Bool :=
  containsChars haystack.data needle.data

/-- Round a rational to the nearest integer, ties to even (the contract of
Python `round` on exact decimal values). -/
def pyRoundInt (x : ℚ) : ℤ :=
  let f := ⌊x⌋
  if x - f < 1/2 then f
  else if 1/2 < x - f then f + 1
  else if f % 2 = 0 then f else f + 1

/-- Python `round(x, n)` modelled exactly on rationals. -/
def pyRoundTo (x : ℚ) (n : ℕ) : ℚ :=
  (pyRoundInt (x * 10 ^ n) : ℚ) / 10 ^ n

/-! ## Risk manager (src/risk_manager.py)

Configuration defaults taken from `RiskManager.__init__` (lines 27-38). -/

/-- `risk.max_open_positions` default (line 28). -/
def maxOpenPositionsDefault : ℕ := 10

/-- `risk.max_position_size_percent` default (line 29). -/
def maxPositionSizePercent : ℚ := 5

/-- Drawdown protection thresholds (lines 33-38). -/
structure DrawdownThresholds where
  s1 : ℚ
  s2 : ℚ
  s3 : ℚ
  s4 : ℚ
  deriving DecidableEq, Repr

/-- Default drawdown thresholds: 5, 10, 15, 20 percent. -/
def defaultThresholds : DrawdownThresholds := ⟨5, 10, 15, 20⟩

/-- The drawdown-stage ladder of `_update_user_risk_state` (lines 358-367). -/
def drawdownStage (th : DrawdownThresholds) (drawdown_percent : ℚ) : ℕ :=
  if drawdown_percent ≥ th.s4 then 4
  else if drawdown_percent ≥ th.s3 then 3
  else if drawdown_percent ≥ th.s2 then 2
  else if drawdown_percent ≥ th.s1 then 1
  else 0

/-- One open position as stored in `risk_state["open_positions"]` (lines 370-379). -/
structure Position where
  symbol : String
  side : String
  entry_price : ℚ
  quantity : ℚ
  deriving DecidableEq, Repr

/-- The per-user risk-state dict (lines 308-315).  The Python dict only ever
receives the six keys below; the key `side` tested by `_is_trading_allowed`
(line 416) is modelled as an `Option` that no code path ever sets. -/
structure RiskState where
  drawdown_stage : ℕ
  max_equity : ℚ
  current_equity : ℚ
  open_positions : List Position
  position_correlation : List (String × ℚ)
  last_updated : ℚ
  side : Option String
  deriving DecidableEq, Repr

/-- Fresh risk state created by `_get_user_risk_state` (lines 308-315); note
that no `side` entry is created. -/
def initRiskState : RiskState :=
  { drawdown_stage := 0, max_equity := 0, current_equity := 0,
    open_positions := [], position_correlation := [], last_updated := 0,
    side := none }

/-- The i-lt-j symbol pairs walked by `_update_position_correlation` (lines 541-544). -/
def pairKeys : List String → List (String × String)
  | [] => []
  | s :: rest => rest.map (fun t => (s, t)) ++ pairKeys rest

/-- `_update_position_correlation` (lines 525-563): each `s1_s2` key gets the
cached matrix value or the 0.3 default, written into the risk state. -/
def updatePositionCorrelation (matrix : List (String × ℚ)) (symbols : List String)
    (pc : List (String × ℚ)) : List (String × ℚ) :=
  (pairKeys symbols).foldl
    (fun acc p =>
      let key := p.1 ++ "_" ++ p.2
      let correlation := (lookupQ matrix key).getD (0.3 : ℚ)
      upsertQ acc key correlation)
    pc

/-- `_update_user_risk_state` (lines 324-388): refresh equity, peak equity,
drawdown stage, open positions and the correlation table.  The `side` entry
is never written. -/
def updateUserRiskState (user_equity : ℚ) (positions : List Position)
    (matrix : List (String × ℚ)) (now : ℚ) (rs : RiskState) : RiskState :=
  let current_equity := user_equity
  let max_equity := if user_equity > rs.max_equity then user_equity else rs.max_equity
  let stage :=
    if max_equity > 0 then
      drawdownStage defaultThresholds ((max_equity - current_equity) / max_equity * 100)
    else rs.drawdown_stage
  { drawdown_stage := stage,
    max_equity := max_equity,
    current_equity := current_equity,
    open_positions := positions,
    position_correlation :=
      updatePositionCorrelation matrix (positions.map (fun p => p.symbol)) rs.position_correlation,
    last_updated := now,
    side := rs.side }

/-- `_is_trading_allowed` (lines 390-425).  Stage 2 tests membership of the key
`side` in the risk-state dict; modelled by matching on the `side` option. -/
def isTradingAllowed (user_is_paused : Bool) (rs : RiskState) : Bool :=
  if user_is_paused then false
  else if rs.drawdown_stage == 4 then false
  else if rs.drawdown_stage == 3 then
    decide (rs.open_positions.length < maxOpenPositionsDefault)
  else if rs.drawdown_stage == 2 then
    (match rs.side with
     | some s => s.toLower == "sell"
     | none => false)
  else decide (rs.open_positions.length < maxOpenPositionsDefault)

/-- The user attributes read by the risk manager. -/
structure User where
  is_paused : Bool
  balance : ℚ
  risk_level : String
  deriving DecidableEq, Repr

/-- Base risk percent by user risk level (lines 459-466). -/
def riskPercentOf (risk_level : String) : ℚ :=
  if risk_level == "low" then 1
  else if risk_level == "medium" then 2
  else if risk_level == "high" then 3
  else 2

/-- Drawdown reduction of the risk percent (lines 469-474). -/
def drawdownAdjust (stage : ℕ) (risk_percent : ℚ) : ℚ :=
  if stage == 1 then risk_percent * (0.75 : ℚ)
  else if 2 ≤ stage then risk_percent * (0.5 : ℚ)
  else risk_percent

/-- A trading signal (the attributes used by the risk manager). -/
structure Signal where
  symbol : String
  side : String
  price : ℚ
  quantity : ℚ
  stop_loss : Option ℚ
  take_profit : Option ℚ
  deriving DecidableEq, Repr

/-- Python truthiness of an optional float: `None` and `0.0` are falsy. -/
def truthyOpt (o : Option ℚ) : Bool :=
  match o with
  | some v => decide (v ≠ 0)
  | none => false

/-- `_round_position_size` (lines 505-523). -/
def roundPositionSize (position_size : ℚ) (symbol : String) : ℚ :=
  if strContains symbol "BTC" then pyRoundTo position_size 6
  else if strContains symbol "ETH" then pyRoundTo position_size 5
  else pyRoundTo position_size 2

/-- Lines 480-491 of `_calculate_position_size`: the size before the cap.
The guard is Python truthiness of `signal.stop_loss and signal.price`. -/
def preCapPositionSize (balance risk_percent : ℚ) (signal : Signal)
    (max_position_size : ℚ) : ℚ :=
  if truthyOpt signal.stop_loss && decide (signal.price ≠ 0) then
    let risk_amount := balance * (risk_percent / 100)
    let price_diff_percent := |signal.price - signal.stop_loss.getD 0| / signal.price * 100
    if 0 < price_diff_percent then risk_amount / price_diff_percent
    else max_position_size * (0.5 : ℚ)
  else balance * (risk_percent / 100) / signal.price

/-- `_calculate_position_size` (lines 427-503).  When `user.balance ≤ 0` the
source falls into the exchange-balance branch, which reads `self.exchange`,
an attribute `__init__` never sets, so the AttributeError is caught and 0 is
returned; the same happens via the explicit `balance <= 0` guard. -/
def calcPositionSize (user : User) (signal : Signal) (rs : RiskState) : ℚ :=
  if user.balance ≤ 0 then 0
  else
    let risk_percent := drawdownAdjust rs.drawdown_stage (riskPercentOf user.risk_level)
    let max_position_size := user.balance * (maxPositionSizePercent / 100)
    let position_size := preCapPositionSize user.balance risk_percent signal max_position_size
    let position_size := min position_size (max_position_size / signal.price)
    roundPositionSize position_size signal.symbol

/-- Position-sizing formula exactly as the specification words it, for
comparison with `calcPositionSize`: base percent by risk level, drawdown-stage
multiplier, divide by stop distance in percent (or by price), cap at
max-percent-of-balance converted to units at the signal price, round. -/
def specPositionSize (balance : ℚ) (risk_level : String) (stage : ℕ)
    (price : ℚ) (stop : Option ℚ) (symbol : String) : ℚ :=
  let base :=
    if risk_level == "low" then (1 : ℚ)
    else if risk_level == "medium" then 2
    else if risk_level == "high" then 3
    else 2
  let mult := if stage == 1 then (0.75 : ℚ) else if 2 ≤ stage then (0.5 : ℚ) else 1
  let risk_amount := balance * (base * mult) / 100
  let raw :=
    match stop with
    | some sl => risk_amount / (|price - sl| / price * 100)
    | none => risk_amount / price
  let capped := min raw (balance * (maxPositionSizePercent / 100) / price)
  roundPositionSize capped symbol

/-- The per-user trading settings dict (lines 62-72). -/
structure TradingSettings where
  trading_mode : String
  risk_level : String
  is_paused : Bool
  max_open_positions : ℕ
  max_position_size : ℚ
  deriving DecidableEq, Repr

/-- Defaults used when a user has no stored settings (lines 66-72). -/
def defaultSettings : TradingSettings :=
  { trading_mode := "paper", risk_level := "medium", is_paused := false,
    max_open_positions := 5, max_position_size := (0.1 : ℚ) }

/-- External market data and exchange state read during validation. -/
structure MarketEnv where
  volatility : ℚ
  liquidity : ℚ
  account_balance : ℚ
  open_positions_count : ℕ
  deriving DecidableEq, Repr

/-- `_get_max_volatility_for_risk_level` (lines 180-188). -/
def maxVolatilityFor (risk_level : String) : ℚ :=
  if risk_level.toLower == "low" then 5
  else if risk_level.toLower == "medium" then 10
  else if risk_level.toLower == "high" then 20
  else 10

/-- `_get_min_liquidity_for_position_size` (lines 190-193). -/
def minLiquidityFor (position_value : ℚ) : ℚ := position_value * 20

/-- `_calculate_stop_loss` (lines 195-209). -/
def calcStopLoss (signal : Signal) (risk_level : String) : ℚ :=
  let percentage :=
    if risk_level.toLower == "low" then (0.02 : ℚ)
    else if risk_level.toLower == "medium" then (0.05 : ℚ)
    else if risk_level.toLower == "high" then (0.10 : ℚ)
    else (0.05 : ℚ)
  if signal.side.toLower == "buy" then signal.price * (1 - percentage)
  else signal.price * (1 + percentage)

/-- `_calculate_take_profit` (lines 211-225). -/
def calcTakeProfit (signal : Signal) (risk_level : String) : ℚ :=
  let percentage :=
    if risk_level.toLower == "low" then (0.03 : ℚ)
    else if risk_level.toLower == "medium" then (0.08 : ℚ)
    else if risk_level.toLower == "high" then (0.15 : ℚ)
    else (0.08 : ℚ)
  if signal.side.toLower == "buy" then signal.price * (1 + percentage)
  else signal.price * (1 - percentage)

/-- `_calculate_total_allocation` (lines 605-622). -/
def totalAllocation (rs : RiskState) : ℚ :=
  (rs.open_positions.map (fun p => p.entry_price * p.quantity)).sum

/-- Correlation lookup of `_check_correlation_risk` (lines 660-669): try
`sym1_sym2`, then `sym2_sym1`, else the 0.3 default. -/
def corrLookup (pc : List (String × ℚ)) (a b : String) : ℚ :=
  match lookupQ pc (a ++ "_" ++ b) with
  | some c => c
  | none =>
    match lookupQ pc (b ++ "_" ++ a) with
    | some c => c
    | none => (0.3 : ℚ)

/-- The hedge exemption of lines 648-654: same symbol, opposite side. -/
def isHedge (signal : Signal) (p : Position) : Bool :=
  p.symbol == signal.symbol && p.side != signal.side

/-- The high-correlation count accumulated in lines 645-673. -/
def highCorrCount (signal : Signal) (rs : RiskState) : ℕ :=
  (rs.open_positions.filter (fun p =>
    !(isHedge signal p) &&
      decide ((0.7 : ℚ) < corrLookup rs.position_correlation signal.symbol p.symbol))).length

/-- `_check_correlation_risk` (lines 624-679). -/
def checkCorrelationRisk (signal : Signal) (rs : RiskState) : Bool :=
  if rs.open_positions.isEmpty then true
  else if rs.position_correlation.isEmpty then true
  else decide (highCorrCount signal rs ≤ 2)

/-- `_check_portfolio_risk` (lines 565-603).  When `current_equity` is zero the
division at line 585 raises ZeroDivisionError, the handler returns False. -/
def checkPortfolioRisk (signal : Signal) (rs : RiskState) : Bool :=
  if rs.current_equity == 0 then false
  else
    let total_allocation := totalAllocation rs
    let new_position_value := signal.price * signal.quantity
    let new_allocation := (total_allocation + new_position_value) / rs.current_equity * 100
    if new_allocation > 80 then false
    else checkCorrelationRisk signal rs

/-- Live-mode position-size adjustment of `validate_signal` (lines 100-115). -/
def adjustLive (settings : TradingSettings) (env : MarketEnv) (signal : Signal) : Signal :=
  let position_value := signal.quantity * signal.price
  let position_size_percent :=
    if env.account_balance > 0 then position_value / env.account_balance else 1
  if position_size_percent > settings.max_position_size then
    { signal with quantity := settings.max_position_size * env.account_balance / signal.price }
  else signal

/-- `validate_signal` (lines 57-178).  The local `position_value` is assigned
only inside the `trading_mode == "live"` block (line 108); in paper mode the
read at line 135 raises UnboundLocalError, which the handler at line 176
turns into `None`.  That local is modelled as an `Option` that is `none`
outside live mode. -/
def validateSignal (settingsOpt : Option TradingSettings) (user : User)
    (signal : Signal) (rs : RiskState) (env : MarketEnv) : Option Signal :=
  let settings := settingsOpt.getD defaultSettings
  if settings.is_paused then none
  else if !(isTradingAllowed user.is_paused rs) then none
  else if settings.trading_mode == "live" &&
      decide (settings.max_open_positions ≤ env.open_positions_count) then none
  else
    let position_value : Option ℚ :=
      if settings.trading_mode == "live" then some (signal.quantity * signal.price) else none
    let signal1 :=
      if settings.trading_mode == "live" then adjustLive settings env signal else signal
    if env.volatility > maxVolatilityFor settings.risk_level then none
    else
      match position_value with
      | none => none
      | some pv =>
        if env.liquidity < minLiquidityFor pv then none
        else
          let position_size := calcPositionSize user signal1 rs
          if position_size ≤ 0 then none
          else
            let signal2 := { signal1 with quantity := position_size }
            let signal3 :=
              if !truthyOpt signal2.stop_loss then
                { signal2 with stop_loss := some (calcStopLoss signal2 settings.risk_level) }
              else signal2
            let signal4 :=
              if !truthyOpt signal3.take_profit then
                { signal3 with take_profit := some (calcTakeProfit signal3 settings.risk_level) }
              else signal3
            if !(checkPortfolioRisk signal4 rs) then none
            else some signal4

/-! ## Portfolio sweep (`assess_portfolio_risk`, lines 227-294) -/

/-- Aggregate portfolio metrics of `_analyze_portfolio` (lines 681-752). -/
structure PortfolioMetrics where
  position_count : ℕ
  total_exposure : ℚ
  exposure_percent : ℚ
  highest_concentration : ℚ
  concentration_symbol : String
  portfolio_correlation : ℚ
  potential_drawdown : ℚ
  value_at_risk : ℚ
  overnight_exposure : ℚ
  volatility_exposure : ℚ
  deriving DecidableEq, Repr

/-- A risk mitigation action as the dead nested block of lines 754-829 would
build it. -/
structure RiskAction where
  action_type : String
  reason : String
  severity : String
  deriving DecidableEq, Repr

/-- `_analyze_portfolio` (lines 681-752). -/
def analyzePortfolio (rs : RiskState) : PortfolioMetrics :=
  let base : PortfolioMetrics :=
    { position_count := rs.open_positions.length, total_exposure := 0,
      exposure_percent := 0, highest_concentration := 0, concentration_symbol := "",
      portfolio_correlation := 0, potential_drawdown := 0, value_at_risk := 0,
      overnight_exposure := 0, volatility_exposure := 0 }
  if rs.open_positions.isEmpty then base
  else
    let total_value := totalAllocation rs
    let largest :=
      rs.open_positions.foldl
        (fun acc p =>
          let v := p.entry_price * p.quantity
          if v > acc.1 then (v, p.symbol) else acc)
        ((0 : ℚ), "")
    let exposure_percent :=
      if rs.current_equity > 0 then total_value / rs.current_equity * 100 else 0
    let highest_concentration := if total_value > 0 then largest.1 / total_value * 100 else 0
    let concentration_symbol := if total_value > 0 then largest.2 else ""
    let portfolio_correlation :=
      if rs.position_correlation.isEmpty then 0
      else (rs.position_correlation.map (fun p => p.2)).sum / rs.position_correlation.length
    { base with
      total_exposure := total_value,
      exposure_percent := exposure_percent,
      highest_concentration := highest_concentration,
      concentration_symbol := concentration_symbol,
      portfolio_correlation := portfolio_correlation,
      potential_drawdown := exposure_percent * (0.1 : ℚ),
      value_at_risk := total_value * (0.05 : ℚ),
      overnight_exposure := total_value,
      volatility_exposure := total_value * (0.2 : ℚ) }

/-- The attribute lookup `self._determine_risk_actions` performed at line 268.
In the source the corresponding `def` (line 754) is indented inside
`_analyze_portfolio`, after that method has already returned, so the class
has no such attribute and the lookup raises AttributeError. -/
def determineRiskActionsAttr : Except PyError (List RiskAction) :=
  Except.error PyError.attributeError

/-- The attribute lookup `self._record_assessment_results` performed at line
287.  The corresponding `def` (line 925) is indented inside
`_send_risk_notification`, so the class has no such attribute and the lookup
raises AttributeError. -/
def recordAssessmentResultsAttr : Except PyError Unit :=
  Except.error PyError.attributeError

/-- Snapshot of one user visited by the sweep. -/
structure UserSnapshot where
  user_id : ℕ
  equity : ℚ
  positions : List Position
  deriving DecidableEq, Repr

/-- The per-user body of the `assess_portfolio_risk` loop (lines 248-284):
refresh the risk state, analyze the portfolio, then look up
`_determine_risk_actions`, whose AttributeError is swallowed by the inner
handler at line 283 (the user contributes no assessment entry). -/
def assessUser (u : UserSnapshot) (rs : RiskState) :
    Option (PortfolioMetrics × List RiskAction) :=
  let rs1 := updateUserRiskState u.equity u.positions [] 0 rs
  let metrics := analyzePortfolio rs1
  match determineRiskActionsAttr with
  | Except.ok actions => some (metrics, actions)
  | Except.error _ => none

/-- The attribute lookup `self._get_users_with_positions` performed at line
241, the first step of `assess_portfolio_risk`.  No method of that name is
defined anywhere in the repository (the call site is its only occurrence),
so the lookup raises AttributeError. -/
def getUsersWithPositionsAttr : Except PyError (List UserSnapshot) :=
  Except.error PyError.attributeError

/-- The remainder of the `assess_portfolio_risk` body (lines 243-290),
unreachable in the source because line 241 raises first: early True when the
fetched user list is empty; otherwise the per-user loop swallows every
AttributeError and the final `self._record_assessment_results` lookup
raises, so the outer handler at line 292 would return False. -/
def assessPortfolioRiskLoop (users : List UserSnapshot) : Bool :=
  if users.isEmpty then true
  else
    let results := users.filterMap (fun u => (assessUser u initRiskState).map (fun r => (u.user_id, r)))
    match recordAssessmentResultsAttr with
    | Except.ok _ => true
    | Except.error _ =>
      let _ := results
      false

/-- `assess_portfolio_risk` (lines 227-294): the very first step, the
`self._get_users_with_positions()` call at line 241, raises AttributeError,
which the outer handler at line 292 turns into False — on every call,
whatever the database holds. -/
def assessPortfolioRisk : Bool :=
  match getUsersWithPositionsAttr with
  | Except.ok users => assessPortfolioRiskLoop users
  | Except.error _ => false

/-! ## Self-healing supervisor (src/self_healing.py) -/

/-- The mutable part of one healing-strategy record (lines 80-125). -/
structure HealingStrategy where
  attempts : ℕ
  max_attempts : ℕ
  severity : String
  deriving DecidableEq, Repr

/-- `_reset_strategy_tracking` (lines 255-259). -/
def resetStrategyTracking (s : HealingStrategy) : HealingStrategy :=
  { s with attempts := 0 }

/-- `_attempt_component_recovery` (lines 194-214): increment attempts, and on
a successful heal within the attempt budget decrement by one with floor
zero.  `healed` is the outcome of the `heal` callback. -/
def attemptComponentRecovery (s : HealingStrategy) (healed : Bool) : HealingStrategy :=
  let s1 := { s with attempts := s.attempts + 1 }
  if s1.attempts ≤ s1.max_attempts then
    if healed then { s1 with attempts := max 0 (s1.attempts - 1) }
    else s1
  else s1

/-- Effect of one `_run_healing_cycle` pass (lines 171-192) on one strategy:
a healthy check resets the tracking, a failing check runs the recovery. -/
def runCycleStrategyStep (s : HealingStrategy) (checkHealthy healed : Bool) :
    HealingStrategy :=
  if checkHealthy then resetStrategyTracking s
  else attemptComponentRecovery s healed

/-! ## Scheduler (src/scheduler.py) -/

/-- One entry of the scheduler task dict as `add_job` builds it (lines
269-278); calendar fields are 0 when the key is absent. -/
structure SchedTask where
  kind : String
  interval : ℚ
  last_run : ℚ
  hour : ℤ
  minute : ℤ
  day_of_week : ℤ
  day : ℤ
  is_critical : Bool
  is_paused : Bool
  deriving DecidableEq, Repr

/-- The task record inserted by `add_job` (lines 269-278): an interval task
with `last_run = 0` for an immediate first run. -/
def mkIntervalTask (interval : ℚ) (is_critical : Bool) : SchedTask :=
  { kind := "interval", interval := interval, last_run := 0,
    hour := 0, minute := 0, day_of_week := 0, day := 0,
    is_critical := is_critical, is_paused := false }

/-- The scheduler task table. -/
structure SchedulerState where
  tasks : List (String × SchedTask)
  deriving DecidableEq, Repr

/-- Dict assignment for the task table. -/
def upsertTask (m : List (String × SchedTask)) (k : String) (v : SchedTask) :
    List (String × SchedTask) :=
  if (m.find? (fun p => p.1 == k)).isSome then
    m.map (fun p => if p.1 == k then (k, v) else p)
  else m ++ [(k, v)]

/-- `add_job` (lines 244-281): insert or overwrite the task, return True. -/
def addJob (st : SchedulerState) (task_id : String) (interval : ℚ)
    (is_critical : Bool) : Bool × SchedulerState :=
  (true, ⟨upsertTask st.tasks task_id (mkIntervalTask interval is_critical)⟩)

/-- Split a character list at every occurrence of a separator (the behaviour
of Python `str.split` with an explicit separator). -/
def splitCharsOn (sep : Char) : List Char → List (List Char)
  | [] => [[]]
  | c :: t =>
    match splitCharsOn sep t with
    | [] => if c == sep then [[], []] else [[c]]
    | r :: rs => if c == sep then [] :: r :: rs else (c :: r) :: rs

/-- Parse a non-empty all-digit character list as Python `int` does on such
input. -/
def parseNatAux : List Char → ℕ → Option ℕ
  | [], acc => some acc
  | c :: t, acc =>
    if c.isDigit then parseNatAux t (acc * 10 + (c.toNat - 48)) else none

/-- Python `int` on a decimal digit string; anything else raises ValueError,
modelled as `none`. -/
def parseNatChars (l : List Char) : Option ℕ :=
  if l.isEmpty then none else parseNatAux l 0

/-- The parse at line 227: `hour, minute = map(int, run_at_time.split(":"))`.
Splitting into anything but two parts, or a non-integer part, raises
ValueError, modelled as `none`. -/
def parseTimeOfDay (s : String) : Option (ℕ × ℕ) :=
  match splitCharsOn ':' s.data with
  | [h, m] =>
    match parseNatChars h, parseNatChars m with
    | some hh, some mm => some (hh, mm)
    | _, _ => none
  | _ => none

/-- `schedule` (lines 195-242).  With a parsable `run_at_time` it calls
`self.add_daily_job` (line 230); scheduler.py defines no such method
anywhere (the comment at lines 376-377 says such methods "can be added"),
so the lookup raises AttributeError, which the
`except (ValueError, IndexError)` handler at line 234 does not catch. -/
def schedule (st : SchedulerState) (task_id? : Option String) (interval_seconds : ℚ)
    (run_at_time : Option String) (is_critical : Bool) :
    Except PyError (Bool × SchedulerState) :=
  let task_id := task_id?.getD ("task_" ++ toString (st.tasks.length + 1))
  match run_at_time with
  | some t =>
    match parseTimeOfDay t with
    | some _ => Except.error PyError.attributeError
    | none => Except.ok (false, st)
  | none => Except.ok (addJob st task_id interval_seconds is_critical)

/-- The fields of `datetime.now()` read by `_should_run_task`. -/
structure PyDateTime where
  timestamp : ℚ
  hour : ℤ
  minute : ℤ
  second : ℤ
  weekday : ℤ
  day : ℤ
  deriving DecidableEq, Repr

/-- `_should_run_task` (lines 120-164). -/
def shouldRunTask (t : SchedTask) (now : PyDateTime) : Bool :=
  if t.is_paused then false
  else if t.kind == "interval" then decide (now.timestamp - t.last_run ≥ t.interval)
  else if t.kind == "daily" then
    (now.hour == t.hour && now.minute == t.minute && decide (now.second < 1))
  else if t.kind == "weekly" then
    (now.weekday == t.day_of_week && now.hour == t.hour &&
     now.minute == t.minute && decide (now.second < 1))
  else if t.kind == "monthly" then
    (now.day == t.day && now.hour == t.hour &&
     now.minute == t.minute && decide (now.second < 1))
  else false

/-! ## Trading loop (src/engine.py) -/

/-- `max_consecutive_errors` (engine.py line 124). -/
def maxConsecutiveErrors : ℕ := 5

/-- `error_backoff_time` in seconds (engine.py line 125). -/
def errorBackoffTime : ℚ := 5

/-- The loop-visible engine state touched by one `_trading_loop` iteration. -/
structure EngineLoopState where
  error_count : ℕ
  health_status : String
  running : Bool
  deriving DecidableEq, Repr

/-- One non-paused iteration of `_trading_loop` (engine.py lines 413-457):
`raised` tells whether an exception escaped the iteration body.  Returns the
new state and the sleep duration in seconds (the happy path sleeps 1s,
line 436; the error path sleeps the capped exponential backoff, line 451). -/
def tradingLoopIteration (s : EngineLoopState) (raised : Bool) : EngineLoopState × ℚ :=
  if raised then
    let error_count := s.error_count + 1
    let backoff_time := min (errorBackoffTime * 2 ^ (error_count - 1)) 60
    let health_status :=
      if error_count ≥ maxConsecutiveErrors then "degraded" else s.health_status
    ({ error_count := error_count, health_status := health_status,
       running := s.running }, backoff_time)
  else ({ s with error_count := 0 }, 1)

/-! ## Theorems -/

/-- C5: for every equity pair (peak, current) with peak positive, the drawdown
stage computed by the risk-state update is the deterministic step function of
the drawdown percent (stage 0 below 5, 1 at or above 5, 2 at or above 10, 3 at
or above 15, 4 at or above 20 with the default thresholds), and that step
function is monotone non-decreasing in the drawdown percent. -/
theorem C5_drawdown_stage_step_monotone :
    (∀ (peak cur : ℚ) (ps : List Position) (mx : List (String × ℚ)) (t : ℚ)
        (rs : RiskState), 0 < peak → rs.max_equity = peak → cur ≤ peak →
        (updateUserRiskState cur ps mx t rs).drawdown_stage
          = drawdownStage defaultThresholds ((peak - cur) / peak * 100))
    ∧ (∀ d : ℚ,
        (d < 5 → drawdownStage defaultThresholds d = 0)
        ∧ (5 ≤ d → d < 10 → drawdownStage defaultThresholds d = 1)
        ∧ (10 ≤ d → d < 15 → drawdownStage defaultThresholds d = 2)
        ∧ (15 ≤ d → d < 20 → drawdownStage defaultThresholds d = 3)
        ∧ (20 ≤ d → drawdownStage defaultThresholds d = 4))
    ∧ (∀ d e : ℚ, d ≤ e →
        drawdownStage defaultThresholds d ≤ drawdownStage defaultThresholds e) := by
  refine ⟨?_, ?_, ?_⟩
  · intro peak cur ps mx t rs hpos hmax hle
    have hm : (if cur > rs.max_equity then cur else rs.max_equity) = peak := by
      rw [hmax]; exact if_neg (not_lt.mpr hle)
    simp only [updateUserRiskState, hm]
    rw [if_pos hpos]
  · intro d
    simp only [drawdownStage, defaultThresholds, ge_iff_le]
    refine ⟨?_, ?_, ?_, ?_, ?_⟩ <;> intros <;> split_ifs <;> first | rfl | linarith
  · intro d e hde
    simp only [drawdownStage, defaultThresholds, ge_iff_le]
    split_ifs <;> first | omega | linarith

/-- Witness for C5 at peak 100, current 88 (drawdown 12 percent, stage 2). -/
theorem C5_drawdown_witness :
    (0 : ℚ) < 100
    ∧ (updateUserRiskState 88 [] [] 0
         { initRiskState with max_equity := 100 }).drawdown_stage
        = drawdownStage defaultThresholds ((100 - 88) / 100 * 100)
    ∧ drawdownStage defaultThresholds ((100 - 88) / 100 * 100) = 2 := by
  have h := C5_drawdown_stage_step_monotone
  refine ⟨by norm_num, h.1 100 88 [] [] 0 _ (by norm_num) rfl (by norm_num), ?_⟩
  exact (h.2.1 ((100 - 88) / 100 * 100)).2.2.1 (by norm_num) (by norm_num)

/-- C7 counterexample: with the attempt counter at 2, a healthy check (no heal
is executed at all) resets the counter to 0 — a decrease of two that is not
the result of a successful heal, refuting the claim that the counter
decreases only via a successful heal and then by exactly one. -/
theorem C7_reset_counterexample :
    (runCycleStrategyStep ⟨2, 3, "critical"⟩ true false).attempts = 0
    ∧ (runCycleStrategyStep ⟨2, 3, "critical"⟩ true false).attempts < 2
    ∧ (runCycleStrategyStep ⟨2, 3, "critical"⟩ true false).attempts ≠ 2 - 1 := by
  refine ⟨rfl, by decide, by decide⟩

/-- C7 (amended): across healing cycles the attempt counter is reset to zero
whenever the health check succeeds; on a failing check the recovery cycle
increments it by one, and a successful heal within the attempt budget then
decrements it by exactly one (net unchanged); the counter strictly increases
only on a failing check-then-recovery cycle. -/
theorem C7_attempts_characterization :
    ∀ (s : HealingStrategy) (checkHealthy healed : Bool),
      ((runCycleStrategyStep s checkHealthy healed).attempts =
        if checkHealthy then 0
        else if healed && decide (s.attempts + 1 ≤ s.max_attempts) then s.attempts
        else s.attempts + 1)
      ∧ (s.attempts < (runCycleStrategyStep s checkHealthy healed).attempts →
          checkHealthy = false
          ∧ (runCycleStrategyStep s checkHealthy healed).attempts = s.attempts + 1) := by
  intro s checkHealthy healed
  have hmain : (runCycleStrategyStep s checkHealthy healed).attempts =
      if checkHealthy then 0
      else if healed && decide (s.attempts + 1 ≤ s.max_attempts) then s.attempts
      else s.attempts + 1 := by
    unfold runCycleStrategyStep resetStrategyTracking attemptComponentRecovery
    cases checkHealthy <;> cases healed <;> simp <;> split_ifs <;> simp_all
  refine ⟨hmain, ?_⟩
  intro hlt
  rw [hmain] at hlt
  cases checkHealthy with
  | true => simp at hlt
  | false =>
    refine ⟨rfl, ?_⟩
    rw [hmain]
    simp only [Bool.false_eq_true, if_false] at hlt ⊢
    split_ifs at hlt ⊢
    · omega
    · rfl

/-- Witness for C7 (amended): a failing check with a successful heal inside
the budget leaves the counter unchanged. -/
theorem C7_attempts_witness :
    (runCycleStrategyStep ⟨1, 3, "critical"⟩ false true).attempts = 1 := by
  have h := (C7_attempts_characterization ⟨1, 3, "critical"⟩ false true).1
  rw [h]; decide

/-- C9: in the trading loop, an iteration whose body raises increments the
consecutive-error counter and sleeps min(5 × 2^(errors−1), 60) seconds; an
error-free iteration resets the counter to zero; once the incremented counter
reaches 5 the health status becomes "degraded"; in every case the loop keeps
running (the running flag is untouched). -/
theorem C9_trading_loop_backoff :
    ∀ (s : EngineLoopState) (raised : Bool),
      (raised = true →
        (tradingLoopIteration s raised).1.error_count = s.error_count + 1
        ∧ (tradingLoopIteration s raised).2 = min ((5 : ℚ) * 2 ^ s.error_count) 60
        ∧ (5 ≤ s.error_count + 1 →
            (tradingLoopIteration s raised).1.health_status = "degraded"))
      ∧ (raised = false → (tradingLoopIteration s raised).1.error_count = 0)
      ∧ (tradingLoopIteration s raised).1.running = s.running := by
  intro s raised
  cases raised with
  | false => exact ⟨by simp, fun _ => by simp [tradingLoopIteration], by simp [tradingLoopIteration]⟩
  | true =>
    refine ⟨fun _ => ⟨rfl, ?_, ?_⟩, by simp, rfl⟩
    · show min (errorBackoffTime * 2 ^ (s.error_count + 1 - 1)) 60 = _
      rw [Nat.add_sub_cancel]; rfl
    · intro h5
      show (if 5 ≤ s.error_count + 1 then "degraded" else s.health_status) = _
      rw [if_pos h5]

/-- Witness for C9: a fifth consecutive error degrades health and the backoff
caps at 60 seconds. -/
theorem C9_backoff_witness :
    (tradingLoopIteration ⟨4, "running", true⟩ true).1.error_count = 5
    ∧ (tradingLoopIteration ⟨4, "running", true⟩ true).1.health_status = "degraded"
    ∧ (tradingLoopIteration ⟨4, "running", true⟩ true).2 = 60 := by
  have h := (C9_trading_loop_backoff ⟨4, "running", true⟩ true).1 rfl
  exact ⟨h.1, h.2.2 (by norm_num), by rw [h.2.1]; norm_num⟩

/-- C10: a non-paused interval task is due exactly when now − last_run is at
least the interval; a paused task is never due; a task freshly registered by
add_job has last_run = 0, so it is due on the very first tick (whose Unix
timestamp is at least the interval). -/
theorem C10_interval_due :
    ∀ (t : SchedTask) (now : PyDateTime),
      (t.is_paused = false → t.kind = "interval" →
        (shouldRunTask t now = true ↔ t.interval ≤ now.timestamp - t.last_run))
      ∧ (t.is_paused = true → shouldRunTask t now = false)
      ∧ ((mkIntervalTask t.interval t.is_critical).last_run = 0
          ∧ (t.interval ≤ now.timestamp →
              shouldRunTask (mkIntervalTask t.interval t.is_critical) now = true)) := by
  intro t now
  refine ⟨?_, ?_, rfl, ?_⟩
  · intro hp hk
    unfold shouldRunTask
    rw [hp, hk]
    simp [ge_iff_le]
  · intro hp
    unfold shouldRunTask
    rw [hp]
    rfl
  · intro hi
    unfold shouldRunTask mkIntervalTask
    simp [ge_iff_le]
    linarith

/-- Witness for C10: a task with interval 60 and last_run 0 fires at a real
clock tick. -/
theorem C10_interval_witness :
    shouldRunTask (mkIntervalTask 60 false) ⟨1700000000, 12, 0, 0, 3, 15⟩ = true := by
  refine (C10_interval_due (mkIntervalTask 60 false) ⟨1700000000, 12, 0, 0, 3, 15⟩).2.2.2 ?_
  show (60 : ℚ) ≤ 1700000000
  norm_num

/-- C8: calling schedule with run_at_time "08:30" does parse the hour/minute
pair, but then looks up `self.add_daily_job`, a method scheduler.py never
defines, so AttributeError escapes (the handler only catches ValueError and
IndexError) and no daily task is registered — the claim promises a daily task
and True.  Without run_at_time the task is registered as an interval task and
True is returned. -/
theorem C8_schedule_daily_attribute_error :
    schedule ⟨[]⟩ (some "t1") 60 (some "08:30") false
      = Except.error PyError.attributeError
    ∧ parseTimeOfDay "08:30" = some (8, 30)
    ∧ schedule ⟨[]⟩ (some "t2") 60 none false
      = Except.ok (true, ⟨[("t2", mkIntervalTask 60 false)]⟩) := by
  refine ⟨rfl, rfl, rfl⟩

/-- C3: `assess_portfolio_risk` never performs the claimed assessment and
never returns True: its first step, the `self._get_users_with_positions()`
call at line 241, raises AttributeError (no such method exists anywhere in
the repository), so the outer handler at line 292 makes every call return
False before any risk state is refreshed, any metric or action is derived,
any protective measure is taken or any notification is sent.  Even the
unreachable remainder of the body could not deliver them:
`_determine_risk_actions` (line 754) and `_record_assessment_results`
(line 925) are nested defs, not methods, so no per-user pass would ever
produce an assessment entry. -/
theorem C3_assess_portfolio_returns_false :
    assessPortfolioRisk = false
    ∧ getUsersWithPositionsAttr = Except.error PyError.attributeError
    ∧ (∀ (u : UserSnapshot) (rs : RiskState), assessUser u rs = none) := by
  exact ⟨rfl, rfl, fun u rs => rfl⟩

/-- Secondary fact behind C3: even if the user fetch at line 241 existed and
succeeded, the rest of the sweep would still return False for every
non-empty user set, because the class also lacks
`_determine_risk_actions` and `_record_assessment_results`. -/
theorem assessPortfolioRiskLoop_nonempty_false :
    ∀ users : List UserSnapshot, users ≠ [] → assessPortfolioRiskLoop users = false := by
  intro users h
  cases users with
  | nil => exact absurd rfl h
  | cons a l => rfl

/-- General fact behind C1: whenever the risk state sits at drawdown stage 2
and (as on every reachable state) carries no `side` entry, `validate_signal`
returns `None` for every signal — closing sells included. -/
theorem stage2_rejects_every_signal (settingsOpt : Option TradingSettings)
    (user : User) (signal : Signal) (rs : RiskState) (env : MarketEnv)
    (h2 : rs.drawdown_stage = 2) (hside : rs.side = none) :
    validateSignal settingsOpt user signal rs env = none := by
  have hta : ∀ b, isTradingAllowed b rs = false := by
    intro b
    unfold isTradingAllowed
    rw [h2, hside]
    cases b <;> rfl
  unfold validateSignal
  simp [hta]

/-- Scenario A risk state: peak equity 100, then equity 88 (12 percent
drawdown) with one open long position. -/
def scenarioLong : Position := ⟨"BTC/USDT", "buy", 100, 1⟩

/-- Risk state reached through two `_update_user_risk_state` refreshes. -/
def scenarioRS : RiskState :=
  updateUserRiskState 88 [scenarioLong] [] 2
    (updateUserRiskState 100 [scenarioLong] [] 1 initRiskState)

/-- Scenario A live settings: trading not paused, live mode. -/
def scenarioSettings : TradingSettings :=
  { trading_mode := "live", risk_level := "medium", is_paused := false,
    max_open_positions := 5, max_position_size := (0.1 : ℚ) }

/-- Scenario A user. -/
def scenarioUser : User := ⟨false, 10000, "medium"⟩

/-- The closing sell for the existing long. -/
def scenarioSell : Signal := ⟨"BTC/USDT", "sell", 100, 1, none, none⟩

/-- A new entry signal. -/
def scenarioBuy : Signal := ⟨"BTC/USDT", "buy", 100, 1, none, none⟩

/-- Benign market environment for Scenario A. -/
def scenarioEnv : MarketEnv :=
  { volatility := 1, liquidity := 1000000, account_balance := 10000,
    open_positions_count := 1 }

/-- C1: at drawdown stage 2 the code rejects the closing sell as well as the
new buy.  The stage-2 branch of `_is_trading_allowed` tests
`risk_state["side"]`, a key no code path ever writes (the refreshes preserve
its absence), so the branch always returns False — contradicting both the
accompanying comment ("Allow only if closing an existing position") and the
claim that a closing sell is accepted. -/
theorem C1_stage2_sell_rejected :
    scenarioRS.drawdown_stage = 2
    ∧ scenarioRS.side = none
    ∧ isTradingAllowed false scenarioRS = false
    ∧ validateSignal (some scenarioSettings) scenarioUser scenarioSell scenarioRS scenarioEnv
        = none
    ∧ validateSignal (some scenarioSettings) scenarioUser scenarioBuy scenarioRS scenarioEnv
        = none := by
  have h2 : scenarioRS.drawdown_stage = 2 := by
    norm_num [scenarioRS, updateUserRiskState, initRiskState, drawdownStage,
      defaultThresholds]
  have hside : scenarioRS.side = none := rfl
  refine ⟨h2, hside, ?_,
    stage2_rejects_every_signal _ _ _ _ _ h2 hside,
    stage2_rejects_every_signal _ _ _ _ _ h2 hside⟩
  simp [isTradingAllowed, h2, hside]

/-- C2: whenever the effective trading settings say trading_mode "paper"
(including the defaulted settings of a user with none stored),
`validate_signal` returns `None` for every signal: the local
`position_value` is only assigned inside the live-mode block, so the
liquidity check at line 135 raises UnboundLocalError on every path that
reaches it, and the handler at line 176 returns `None`; every earlier branch
also returns `None`. -/
theorem C2_paper_mode_returns_none :
    ∀ (settingsOpt : Option TradingSettings) (user : User) (signal : Signal)
      (rs : RiskState) (env : MarketEnv),
      (settingsOpt.getD defaultSettings).trading_mode = "paper" →
      validateSignal settingsOpt user signal rs env = none := by
  intro settingsOpt user signal rs env hmode
  have hlive : ((settingsOpt.getD defaultSettings).trading_mode == "live") = false := by
    rw [hmode]; rfl
  unfold validateSignal
  simp [hlive]

/-- Witness for C2: a user with no stored settings and an otherwise
admissible signal still gets no trade. -/
theorem C2_paper_witness :
    ((none : Option TradingSettings).getD defaultSettings).trading_mode = "paper"
    ∧ validateSignal none scenarioUser scenarioBuy initRiskState scenarioEnv = none := by
  exact ⟨rfl, C2_paper_mode_returns_none none scenarioUser scenarioBuy initRiskState
    scenarioEnv rfl⟩

/-- With no open positions the high-correlation count is zero. -/
theorem highCorrCount_empty_positions (signal : Signal) (rs : RiskState)
    (h : rs.open_positions = []) : highCorrCount signal rs = 0 := by
  simp [highCorrCount, h]

/-- With an empty correlation table every lookup falls back to the 0.3
default, so the high-correlation count is zero. -/
theorem highCorrCount_empty_corr (signal : Signal) (rs : RiskState)
    (h : rs.position_correlation = []) : highCorrCount signal rs = 0 := by
  have hcl : ∀ a b, corrLookup rs.position_correlation a b = (0.3 : ℚ) := by
    intro a b
    simp [corrLookup, lookupQ, h]
  have h07 : ¬((0.7 : ℚ) < (0.3 : ℚ)) := by norm_num
  simp [highCorrCount, hcl, h07]

/-- C6: the correlation gate rejects a signal exactly when strictly more than
two open positions (a same-symbol opposite-side position being excluded as a
hedge) have correlation above 0.7 with the signal symbol, correlation being
the stored pairwise value or the 0.3 default; with two or fewer such
positions this rejection never fires. -/
theorem C6_correlation_gate_iff :
    ∀ (signal : Signal) (rs : RiskState),
      (checkCorrelationRisk signal rs = false ↔ 2 < highCorrCount signal rs)
      ∧ (highCorrCount signal rs ≤ 2 → checkCorrelationRisk signal rs = true) := by
  intro signal rs
  have key : checkCorrelationRisk signal rs = false ↔ 2 < highCorrCount signal rs := by
    unfold checkCorrelationRisk
    by_cases h1 : rs.open_positions.isEmpty
    · have h0 := highCorrCount_empty_positions signal rs (by simpa using h1)
      simp [h1, h0]
    · by_cases hpc : rs.position_correlation.isEmpty
      · have h0 := highCorrCount_empty_corr signal rs (by simpa using hpc)
        simp [h1, hpc, h0]
      · simp only [h1, hpc, if_false, Bool.false_eq_true]
        constructor
        · intro hf
          have := of_decide_eq_false hf
          omega
        · intro hlt
          have : ¬(highCorrCount signal rs ≤ 2) := by omega
          exact decide_eq_false this
  refine ⟨key, fun hle => ?_⟩
  cases ht : checkCorrelationRisk signal rs with
  | true => rfl
  | false => exact absurd (key.mp ht) (by omega)

/-- Witness for C6: a risk state with open positions but at most two high
correlations does not trigger the rejection. -/
theorem C6_correlation_witness :
    highCorrCount ⟨"SOL/USDT", "buy", 100, 1, none, none⟩
        { initRiskState with open_positions := [⟨"AAA/USDT", "buy", 10, 1⟩] } ≤ 2
    ∧ checkCorrelationRisk ⟨"SOL/USDT", "buy", 100, 1, none, none⟩
        { initRiskState with open_positions := [⟨"AAA/USDT", "buy", 10, 1⟩] } = true := by
  have hc : highCorrCount ⟨"SOL/USDT", "buy", 100, 1, none, none⟩
      { initRiskState with open_positions := [⟨"AAA/USDT", "buy", 10, 1⟩] } ≤ 2 := by
    rw [highCorrCount_empty_corr _ _ rfl]
    omega
  exact ⟨hc, (C6_correlation_gate_iff _ _).2 hc⟩

/-- The pre-cap size with a usable stop-loss is risk amount over the stop
distance in percent. -/
theorem preCap_with_stop (balance rp price sl q mps : ℚ) (sym sd : String)
    (tp : Option ℚ) (hp : 0 < price) (hsl : sl ≠ 0) (hne : sl ≠ price) :
    preCapPositionSize balance rp ⟨sym, sd, price, q, some sl, tp⟩ mps
      = balance * (rp / 100) / (|price - sl| / price * 100) := by
  have h1 : (truthyOpt (some sl) && decide (price ≠ 0)) = true := by
    simp [truthyOpt, hsl, hp.ne.symm]
  have hpd : 0 < |price - sl| / price * 100 := by
    have hns : price - sl ≠ 0 := sub_ne_zero.mpr (Ne.symm hne)
    have habs : 0 < |price - sl| := abs_pos.mpr hns
    have := div_pos habs hp
    linarith
  simp only [preCapPositionSize, Option.getD_some]
  rw [h1, if_pos rfl, if_pos hpd]

/-- The pre-cap size without a stop-loss divides by the price. -/
theorem preCap_no_stop (balance rp price q mps : ℚ) (sym sd : String)
    (tp : Option ℚ) :
    preCapPositionSize balance rp ⟨sym, sd, price, q, none, tp⟩ mps
      = balance * (rp / 100) / price := by
  simp [preCapPositionSize, truthyOpt]

/-- The drawdown adjustment is multiplication by the stage multiplier. -/
theorem drawdownAdjust_eq_mul (stage : ℕ) (rp : ℚ) :
    drawdownAdjust stage rp
      = rp * (if stage == 1 then (0.75 : ℚ) else if 2 ≤ stage then (0.5 : ℚ) else 1) := by
  unfold drawdownAdjust
  split_ifs <;> ring

/-- C4: the computed position size is exactly the specification formula —
base risk percent of balance by risk level, scaled by the drawdown-stage
multiplier, divided by the stop distance in percent when a stop-loss is
present and by the price otherwise, capped at max-percent-of-balance in
units at the signal price, and rounded to symbol precision; in the Scenario C
numbers the pre-cap size is 200/2 = 100 units. -/
theorem C4_position_size_formula :
    ∀ (balance price sl q : ℚ) (lvl sym sd : String) (rs : RiskState)
      (tp : Option ℚ),
      0 < balance → 0 < price → sl ≠ 0 → sl ≠ price →
      (calcPositionSize ⟨false, balance, lvl⟩ ⟨sym, sd, price, q, some sl, tp⟩ rs
        = specPositionSize balance lvl rs.drawdown_stage price (some sl) sym)
      ∧ (calcPositionSize ⟨false, balance, lvl⟩ ⟨sym, sd, price, q, none, tp⟩ rs
        = specPositionSize balance lvl rs.drawdown_stage price none sym)
      ∧ preCapPositionSize 10000 2 ⟨"SOL/USDT", "buy", 100, 0, some 98, none⟩ 500
        = 100 := by
  intro balance price sl q lvl sym sd rs tp hb hp hsl hne
  refine ⟨?_, ?_, ?_⟩
  · simp only [calcPositionSize, specPositionSize]
    rw [if_neg (not_le.mpr hb)]
    rw [preCap_with_stop balance _ price sl q _ sym sd tp hp hsl hne,
      drawdownAdjust_eq_mul]
    congr 1
    congr 1
    unfold riskPercentOf
    ring
  · simp only [calcPositionSize, specPositionSize]
    rw [if_neg (not_le.mpr hb)]
    rw [preCap_no_stop balance _ price q _ sym sd tp, drawdownAdjust_eq_mul]
    congr 1
    congr 1
    unfold riskPercentOf
    ring
  · rw [preCap_with_stop 10000 2 100 98 0 500 "SOL/USDT" "buy" none
      (by norm_num) (by norm_num) (by norm_num)]
    rw [show |(100 : ℚ) - 98| = 2 by norm_num]
    norm_num

/-- Witness for C4 at the Scenario C numbers: balance 10000, medium risk,
stage 0, entry 100, stop 98. -/
theorem C4_position_size_witness :
    (calcPositionSize ⟨false, 10000, "medium"⟩
        ⟨"SOL/USDT", "buy", 100, 0, some 98, none⟩ initRiskState
      = specPositionSize 10000 "medium" 0 100 (some 98) "SOL/USDT")
    ∧ preCapPositionSize 10000 2 ⟨"SOL/USDT", "buy", 100, 0, some 98, none⟩ 500
      = 100 := by
  have h := C4_position_size_formula 10000 100 98 0 "medium" "SOL/USDT" "buy"
    initRiskState none (by norm_num) (by norm_num) (by norm_num) (by norm_num)
  exact ⟨h.1, h.2.2⟩

end QuantumFlow
